import Mathlib

/-!
# Verification of the adaptive streaming quality controller

A shallow embedding of `src/modules/streaming_quality/functions/quality_manager.py`
(the "quality manager" Lambda) and proofs of the specification's claims about it.

Conventions of the embedding:
* JSON numbers carried in request payloads are modelled as `ℚ` (the Python code
  treats them as exact decimal values in comparisons and arithmetic).
* A metrics payload field that may be absent from the request dictionary is an
  `Option`; Python's `dict.get(k, d)` becomes `Option.getD`.
* Python operations that can raise (`list.index`, subscripting) return
  `Except PyErr`; the enclosing handler's `try/except` is modelled by matching
  on the `Except` value.
* Calls to the external DynamoDB store are modelled by passing the outcome of
  the store operation (`Except Unit _`) as an explicit argument; the embedded
  function reproduces exactly what the Python code does with that outcome.
-/

set_option autoImplicit false

namespace QualityManager

/-- Errors a modelled Python expression can raise: `list.index` raises
`ValueError` when the element is absent, subscripting raises `IndexError`. -/
inductive PyErr where
  | valueError
  | indexError
  deriving DecidableEq, Repr

/-- Python `lst[i]` for a list of strings. -/
def pyListGet (l : List String) (i : Nat) : Except PyErr String :=
  match l.get? i with
  | some v => Except.ok v
  | none => Except.error PyErr.indexError

/-- Python `lst.index(x)`: index of the first occurrence, `ValueError` if absent. -/
def pyIndex (l : List String) (x : String) : Except PyErr Nat :=
  match l.findIdx? (fun y => y == x) with
  | some i => Except.ok i
  | none => Except.error PyErr.valueError

/-- Python `lst[-1]`: the last element, `IndexError` on the empty list. -/
def pyLast (l : List String) : Except PyErr String :=
  match l.getLast? with
  | some v => Except.ok v
  | none => Except.error PyErr.indexError

/-- One entry of the module-level `QUALITY_TIERS` dictionary. -/
structure TierConfig where
  max_resolution : String
  max_bitrate : ℕ
  allowed_qualities : List String
  concurrent_streams : ℕ
  priority_access : Bool
  deriving DecidableEq, Repr

def bronzeTier : TierConfig :=
  { max_resolution := "480p", max_bitrate := 1000000,
    allowed_qualities := ["480p"], concurrent_streams := 1, priority_access := false }

def silverTier : TierConfig :=
  { max_resolution := "720p", max_bitrate := 2500000,
    allowed_qualities := ["480p", "720p"], concurrent_streams := 2, priority_access := false }

def goldTier : TierConfig :=
  { max_resolution := "1080p", max_bitrate := 5000000,
    allowed_qualities := ["480p", "720p", "1080p"], concurrent_streams := 3,
    priority_access := false }

def platinumTier : TierConfig :=
  { max_resolution := "1080p", max_bitrate := 8000000,
    allowed_qualities := ["480p", "720p", "1080p"], concurrent_streams := 5,
    priority_access := true }

/-- The module-level `QUALITY_TIERS` dictionary. -/
def QUALITY_TIERS : List (String × TierConfig) :=
  [("bronze", bronzeTier), ("silver", silverTier), ("gold", goldTier),
   ("platinum", platinumTier)]

/-- `QUALITY_TIERS.get(subscription_tier, QUALITY_TIERS['bronze'])`: the tier
lookup every entry point performs, falling back to bronze. -/
def getTierConfig (subscription_tier : String) : TierConfig :=
  (QUALITY_TIERS.lookup subscription_tier).getD bronzeTier

/-- The `metrics` dictionary of an `update_viewer_metrics` / `optimize_quality`
request: each field may be absent from the client's payload. -/
structure Metrics where
  buffer_ratio : Option ℚ
  startup_time : Option ℚ
  rebuffer_count : Option ℚ
  quality_switches : Option ℚ
  current_quality : Option String
  bandwidth_estimate : Option ℚ
  deriving DecidableEq, Repr

/-- `should_trigger_optimization(metrics)`: trigger when
`buffer_ratio > 0.2 or rebuffer_count > 3 or startup_time > 5000`, each field
read with `metrics.get(k, 0)`. -/
def should_trigger_optimization (m : Metrics) : Bool :=
  decide ((0.2 : ℚ) < m.buffer_ratio.getD 0)
    || decide ((3 : ℚ) < m.rebuffer_count.getD 0)
    || decide ((5000 : ℚ) < m.startup_time.getD 0)

/-- What `analyze_streaming_performance` returns: the score plus the advisory
recommendation strings and health classifications. -/
structure PerformanceAnalysis where
  score : ℚ
  recommendations : List String
  buffer_health : String
  startup_health : String
  stability : String
  deriving DecidableEq, Repr

/-- `analyze_streaming_performance(user_id, current_metrics)`: score starts at
100, subtracts four capped penalties, and is clamped below at 0 by
`max(0, score)` (the code has no upper clamp). -/
def analyze_streaming_performance (m : Metrics) : PerformanceAnalysis :=
  let buffer_ratio := m.buffer_ratio.getD 0
  let rebuffer_count := m.rebuffer_count.getD 0
  let startup_time := m.startup_time.getD 0
  let quality_switches := m.quality_switches.getD 0
  let score : ℚ :=
    max 0 (100 - min (buffer_ratio * 100) 30 - min (rebuffer_count * 5) 20
      - min (startup_time / 100) 20 - min (quality_switches * 2) 10)
  { score := score
    recommendations :=
      (if (0.15 : ℚ) < buffer_ratio then ["Reduce quality to improve buffering"] else [])
        ++ (if (3000 : ℚ) < startup_time then ["Use lower startup quality for faster playback"] else [])
        ++ (if (5 : ℚ) < quality_switches then ["Increase switching threshold to reduce oscillation"] else [])
        ++ (if (2 : ℚ) < rebuffer_count then ["Consider adaptive buffer sizing"] else [])
    buffer_health := if buffer_ratio < (0.1 : ℚ) then "good" else "poor"
    startup_health := if startup_time < (2000 : ℚ) then "good" else "poor"
    stability := if quality_switches < (3 : ℚ) then "good" else "poor" }

/-- `determine_optimal_quality(tier_config, performance, metrics)`.
`current_quality = metrics.get('current_quality', '480p')`.  The Python body is

    if score > 80 and current != allowed[-1]:
        i = allowed.index(current)        # raises ValueError if absent
        if i < len(allowed) - 1: return allowed[i + 1]
    elif score < 60 and current != allowed[0]:
        i = allowed.index(current)
        if i > 0: return allowed[i - 1]
    return current

When `score > 80` the `elif` guard `score < 60` is necessarily false, so every
fall-through returns `current`. -/
def determine_optimal_quality (cfg : TierConfig) (perf : PerformanceAnalysis)
    (m : Metrics) : Except PyErr String :=
  if (80 : ℚ) < perf.score then
    match pyLast cfg.allowed_qualities with
    | Except.error e => Except.error e
    | Except.ok lastq =>
      if m.current_quality.getD "480p" ≠ lastq then
        match pyIndex cfg.allowed_qualities (m.current_quality.getD "480p") with
        | Except.error e => Except.error e
        | Except.ok i =>
          if i < cfg.allowed_qualities.length - 1 then
            pyListGet cfg.allowed_qualities (i + 1)
          else Except.ok (m.current_quality.getD "480p")
      else Except.ok (m.current_quality.getD "480p")
  else if perf.score < (60 : ℚ) then
    match pyListGet cfg.allowed_qualities 0 with
    | Except.error e => Except.error e
    | Except.ok firstq =>
      if m.current_quality.getD "480p" ≠ firstq then
        match pyIndex cfg.allowed_qualities (m.current_quality.getD "480p") with
        | Except.error e => Except.error e
        | Except.ok i =>
          if 0 < i then pyListGet cfg.allowed_qualities (i - 1)
          else Except.ok (m.current_quality.getD "480p")
      else Except.ok (m.current_quality.getD "480p")
  else Except.ok (m.current_quality.getD "480p")

/-- The `quality_bitrates` dictionary of `get_recommended_quality`, read with
`.get(quality, 1000000)`. -/
def quality_bitrates (q : String) : ℚ :=
  if q = "480p" then 1000000
  else if q = "720p" then 2500000
  else if q = "1080p" then 5000000
  else 1000000

/-- `buffer_multiplier = 1.5 if stability == 'unstable' else 1.2 if
stability == 'moderate' else 1.1`. -/
def buffer_multiplier (stability : String) : ℚ :=
  if stability = "unstable" then 1.5
  else if stability = "moderate" then 1.2
  else 1.1

/-- `get_recommended_quality(tier_config, network_conditions)`: walk
`allowed_qualities` in reverse (highest first), return the first quality whose
`required_bitrate * buffer_multiplier` fits the bandwidth; the loop's initial
value `'480p'` is returned when none fits. -/
def get_recommended_quality (cfg : TierConfig) (bandwidth : ℚ)
    (stability : String) : String :=
  (cfg.allowed_qualities.reverse.find?
    (fun q => decide (quality_bitrates q * buffer_multiplier stability ≤ bandwidth))).getD
    "480p"

/-- One active streaming session as `get_user_streaming_sessions` parses it
from a DynamoDB item. -/
structure Session where
  session_id : String
  stream_id : String
  quality : String
  start_time : String
  deriving DecidableEq, Repr

/-- `get_user_streaming_sessions(user_id)`: the DynamoDB query's outcome is the
argument; the surrounding `try/except` returns `[]` when the query raises. -/
def get_user_streaming_sessions (query : Except Unit (List Session)) : List Session :=
  match query with
  | Except.ok sessions => sessions
  | Except.error _ => []

/-- Outcome of one of the store-writing helpers (`record_stream_access`,
`store_optimization_results`): whether the record was persisted and whether an
exception escaped to the caller. -/
structure StoreWrite where
  persisted : Bool
  raised : Bool
  deriving DecidableEq, Repr

/-- `record_stream_access(user_id, stream_id, quality, subscription_tier)`:
the `put_item` outcome is the argument; its `try/except` only logs a failure,
so no exception ever escapes and a failed write simply persists nothing. -/
def record_stream_access (put : Except Unit Unit) : StoreWrite :=
  match put with
  | Except.ok _ => { persisted := true, raised := false }
  | Except.error _ => { persisted := false, raised := false }

/-- `store_optimization_results(user_id, recommendations)`: same
log-and-swallow `try/except` around its `put_item`. -/
def store_optimization_results (put : Except Unit Unit) : StoreWrite :=
  match put with
  | Except.ok _ => { persisted := true, raised := false }
  | Except.error _ => { persisted := false, raised := false }

/-- `get_max_session_duration(subscription_tier)` lookup table (seconds). -/
def get_max_session_duration (tier : String) : ℕ :=
  if tier = "bronze" then 3600
  else if tier = "silver" then 7200
  else if tier = "gold" then 14400
  else if tier = "platinum" then 28800
  else 3600

/-- `get_buffer_size(subscription_tier)` lookup table (seconds). -/
def get_buffer_size (tier : String) : ℕ :=
  if tier = "bronze" then 10
  else if tier = "silver" then 15
  else if tier = "gold" then 20
  else if tier = "platinum" then 30
  else 10

/-- The three possible response bodies of `validate_stream_access`. -/
inductive VSAResp where
  /-- 403: requested quality not in the tier's allowed list; body carries the
  requested quality, the allowed list and the tier. -/
  | qualityNotAllowed (requested : String) (allowed : List String) (tier : String)
  /-- 429: concurrent stream limit reached; body carries the current session
  count, the limit and the active sessions. -/
  | limitExceeded (current limit : ℕ) (active : List Session)
  /-- 200: access granted with the tier-dependent session parameters. -/
  | granted (quality stream_id : String) (max_duration buffer_size : ℕ)
  deriving DecidableEq, Repr

/-- The HTTP status code `create_response` attaches to each body. -/
def VSAResp.statusCode : VSAResp → ℕ
  | VSAResp.qualityNotAllowed .. => 403
  | VSAResp.limitExceeded .. => 429
  | VSAResp.granted .. => 200

/-- What one `validate_stream_access` invocation did: the response, whether
`record_stream_access` was called, and whether the session record persisted. -/
structure VSAOutcome where
  resp : VSAResp
  recordAttempted : Bool
  recordPersisted : Bool
  deriving DecidableEq, Repr

/-- `validate_stream_access(event)`: quality check first (before any store
access), then the concurrency check against the session query, then
`record_stream_access` and the granted response. -/
def validate_stream_access (subscription_tier requested_quality stream_id : String)
    (sessionQuery : Except Unit (List Session)) (sessionPut : Except Unit Unit) :
    VSAOutcome :=
  let cfg := getTierConfig subscription_tier
  if requested_quality ∉ cfg.allowed_qualities then
    { resp := VSAResp.qualityNotAllowed requested_quality cfg.allowed_qualities
        subscription_tier
      recordAttempted := false, recordPersisted := false }
  else
    let sessions := get_user_streaming_sessions sessionQuery
    if cfg.concurrent_streams ≤ sessions.length then
      { resp := VSAResp.limitExceeded sessions.length cfg.concurrent_streams sessions
        recordAttempted := false, recordPersisted := false }
    else
      { resp := VSAResp.granted requested_quality stream_id
          (get_max_session_duration subscription_tier)
          (get_buffer_size subscription_tier)
        recordAttempted := true
        recordPersisted := (record_stream_access sessionPut).persisted }

/-- The `required_metrics` list of `update_viewer_metrics`, in validation order. -/
def required_metrics : List String :=
  ["buffer_ratio", "startup_time", "rebuffer_count", "quality_switches"]

/-- Whether a required metric field is present in the payload. -/
def metricPresent (m : Metrics) : String → Bool
  | "buffer_ratio" => m.buffer_ratio.isSome
  | "startup_time" => m.startup_time.isSome
  | "rebuffer_count" => m.rebuffer_count.isSome
  | "quality_switches" => m.quality_switches.isSome
  | _ => true

/-- The field the validation loop of `update_viewer_metrics` reports: the
first required metric absent from the payload. -/
def firstMissingMetric (m : Metrics) : Option String :=
  required_metrics.find? (fun f => !(metricPresent m f))

/-- The `ViewerMetricSample` item `update_viewer_metrics` writes (key fields
and timestamp omitted; absent optional fields take the code's defaults). -/
structure MetricSample where
  user_id : String
  stream_id : String
  buffer_ratio : ℚ
  startup_time : ℚ
  rebuffer_count : ℚ
  quality_switches : ℚ
  current_quality : String
  bandwidth_estimate : ℚ
  deriving DecidableEq, Repr

def mkMetricSample (user_id stream_id : String) (m : Metrics) : MetricSample :=
  { user_id := user_id, stream_id := stream_id
    buffer_ratio := m.buffer_ratio.getD 0
    startup_time := m.startup_time.getD 0
    rebuffer_count := m.rebuffer_count.getD 0
    quality_switches := m.quality_switches.getD 0
    current_quality := m.current_quality.getD "480p"
    bandwidth_estimate := m.bandwidth_estimate.getD 0 }

/-- The response bodies of `update_viewer_metrics`. -/
inductive UVMResp where
  /-- 400: `Missing required metric: <field>`. -/
  | missingMetric (field : String)
  /-- 500: the sample `put_item` raised and the handler's `except` caught it. -/
  | serverError
  /-- 200: ack with the `optimization_triggered` flag. -/
  | ok (optimization_triggered : Bool)
  deriving DecidableEq, Repr

/-- What one `update_viewer_metrics` invocation did. -/
structure UVMOutcome where
  resp : UVMResp
  samples : List MetricSample
  optimizer_invoked : Bool
  deriving DecidableEq, Repr

/-- `update_viewer_metrics(event)`: validate the four required fields in
order, write the sample (its `put_item` outcome is `samplePut`; a failure
propagates to the handler's `except` giving a 500 with nothing stored), then
invoke `optimize_quality_for_user` when `should_trigger_optimization` holds
and answer 200 with the flag. -/
def update_viewer_metrics (user_id stream_id : String) (m : Metrics)
    (samples : List MetricSample) (samplePut : Except Unit Unit) : UVMOutcome :=
  match firstMissingMetric m with
  | some field => { resp := UVMResp.missingMetric field, samples := samples
                    optimizer_invoked := false }
  | none =>
    match samplePut with
    | Except.error _ => { resp := UVMResp.serverError, samples := samples
                          optimizer_invoked := false }
    | Except.ok _ =>
      { resp := UVMResp.ok (should_trigger_optimization m)
        samples := samples ++ [mkMetricSample user_id stream_id m]
        optimizer_invoked := should_trigger_optimization m }

/-- `calculate_buffer_target(performance)`. -/
def calculate_buffer_target (perf : PerformanceAnalysis) : ℚ :=
  if perf.score < 60 then 0.2
  else if (80 : ℚ) < perf.score then 0.05
  else 0.1

/-- `calculate_switch_threshold(performance)`. -/
def calculate_switch_threshold (perf : PerformanceAnalysis) : ℚ :=
  if perf.stability = "poor" then 0.4 else 0.2

/-- `determine_startup_quality(tier_config, performance)`:
`allowed[0]` when startup health is poor, else `allowed[min(1, len(allowed)-1)]`. -/
def determine_startup_quality (cfg : TierConfig) (perf : PerformanceAnalysis) :
    Except PyErr String :=
  if perf.startup_health = "poor" then pyListGet cfg.allowed_qualities 0
  else pyListGet cfg.allowed_qualities (min 1 (cfg.allowed_qualities.length - 1))

/-- `get_user_subscription_tier(user_id)`: the source never queries the user
database — the body is `return 'silver'` with a comment calling it simplified. -/
def get_user_subscription_tier (_user_id : String) : String :=
  "silver"

/-- The response of `optimize_quality_for_user`. -/
inductive OptResp where
  /-- 200 with the recommendation payload. -/
  | ok (current_quality recommended_quality : String) (performance_score : ℚ)
      (buffer_target quality_switch_threshold : ℚ) (startup_quality : String)
  /-- 500 `Quality optimization failed`: an exception inside the handler
  (e.g. `list.index` raising `ValueError`) reached its `except` clause. -/
  | serverError
  deriving DecidableEq, Repr

/-- `optimize_quality_for_user(event)`: look the tier up via
`get_user_subscription_tier`, analyze performance, determine the optimal
quality and the adaptive settings; any raised exception yields the 500
response.  `store_optimization_results` swallows its own store failures and
cannot fail the request. -/
def optimize_quality_for_user (user_id : String) (m : Metrics) : OptResp :=
  match determine_optimal_quality (getTierConfig (get_user_subscription_tier user_id))
      (analyze_streaming_performance m) m with
  | Except.error _ => OptResp.serverError
  | Except.ok optimal =>
    match determine_startup_quality (getTierConfig (get_user_subscription_tier user_id))
        (analyze_streaming_performance m) with
    | Except.error _ => OptResp.serverError
    | Except.ok startup =>
      OptResp.ok (m.current_quality.getD "480p") optimal
        (analyze_streaming_performance m).score
        (calculate_buffer_target (analyze_streaming_performance m))
        (calculate_switch_threshold (analyze_streaming_performance m)) startup

/-!
## Spec-side definitions

These two definitions follow the specification's words (not the source); the
refinement theorems below compare them with the embedded code.
-/

/-- The recommendation algorithm as the spec words it: first (highest) allowed
quality whose inflated requirement fits the bandwidth, else **the lowest
quality of the tier's ladder** (the ladder's head; every ladder is ascending
and non-empty). -/
def spec_recommended_quality (cfg : TierConfig) (bandwidth : ℚ)
    (stability : String) : String :=
  match cfg.allowed_qualities.reverse.find?
      (fun q => decide (quality_bitrates q * buffer_multiplier stability ≤ bandwidth)) with
  | some q => q
  | none => cfg.allowed_qualities.headD "480p"

/-- The performance score as the spec words it: the penalty formula clamped to
`[0, 100]` on both sides. -/
def spec_clamped_score (m : Metrics) : ℚ :=
  max 0 (min 100
    (100 - min (m.buffer_ratio.getD 0 * 100) 30
      - min (m.rebuffer_count.getD 0 * 5) 20
      - min (m.startup_time.getD 0 / 100) 20
      - min (m.quality_switches.getD 0 * 2) 10))

/-!
## Claim theorems
-/

theorem getTierConfig_bronze : getTierConfig "bronze" = bronzeTier := by
  simp [getTierConfig, QUALITY_TIERS, List.lookup]

theorem getTierConfig_silver : getTierConfig "silver" = silverTier := by
  simp [getTierConfig, QUALITY_TIERS, List.lookup]

theorem getTierConfig_gold : getTierConfig "gold" = goldTier := by
  simp [getTierConfig, QUALITY_TIERS, List.lookup]

theorem getTierConfig_platinum : getTierConfig "platinum" = platinumTier := by
  simp [getTierConfig, QUALITY_TIERS, List.lookup]

theorem getTierConfig_default (tier : String)
    (h : tier ∉ ["bronze", "silver", "gold", "platinum"]) :
    getTierConfig tier = bronzeTier := by
  simp only [List.mem_cons, List.not_mem_nil, or_false, not_or] at h
  obtain ⟨h1, h2, h3, h4⟩ := h
  have e1 : (tier == "bronze") = false := beq_eq_false_iff_ne.mpr h1
  have e2 : (tier == "silver") = false := beq_eq_false_iff_ne.mpr h2
  have e3 : (tier == "gold") = false := beq_eq_false_iff_ne.mpr h3
  have e4 : (tier == "platinum") = false := beq_eq_false_iff_ne.mpr h4
  simp [getTierConfig, QUALITY_TIERS, List.lookup, e1, e2, e3, e4]

theorem tierConfig_cases (tier : String) :
    getTierConfig tier = bronzeTier ∨ getTierConfig tier = silverTier
      ∨ getTierConfig tier = goldTier ∨ getTierConfig tier = platinumTier := by
  by_cases h1 : tier = "bronze"
  · exact Or.inl (h1 ▸ getTierConfig_bronze)
  by_cases h2 : tier = "silver"
  · exact Or.inr (Or.inl (h2 ▸ getTierConfig_silver))
  by_cases h3 : tier = "gold"
  · exact Or.inr (Or.inr (Or.inl (h3 ▸ getTierConfig_gold)))
  by_cases h4 : tier = "platinum"
  · exact Or.inr (Or.inr (Or.inr (h4 ▸ getTierConfig_platinum)))
  · exact Or.inl (getTierConfig_default tier (by simp [h1, h2, h3, h4]))

/-- C1 (hysteresis band): for every tier policy and every metrics input whose
computed performance score lies in the closed interval `[60, 80]`,
`determine_optimal_quality` returns the current quality unchanged — inside the
band it never steps quality up or down. -/
theorem hysteresis_band_keeps_current_quality (cfg : TierConfig) (m : Metrics)
    (h1 : 60 ≤ (analyze_streaming_performance m).score)
    (h2 : (analyze_streaming_performance m).score ≤ 80) :
    determine_optimal_quality cfg (analyze_streaming_performance m) m
      = Except.ok (m.current_quality.getD "480p") := by
  unfold determine_optimal_quality
  rw [if_neg (not_lt.mpr h2), if_neg (not_lt.mpr h1)]

def c1Metrics : Metrics :=
  { buffer_ratio := some 0.1, startup_time := some 1000, rebuffer_count := some 2,
    quality_switches := some 5, current_quality := some "1080p", bandwidth_estimate := none }

theorem c1Metrics_score : (analyze_streaming_performance c1Metrics).score = 60 := by
  norm_num [analyze_streaming_performance, c1Metrics]

/-- C1 witness: concrete metrics with score exactly 60 (the band's lower edge)
on the gold ladder at `1080p`: the optimizer holds `1080p`. -/
theorem hysteresis_band_keeps_current_quality_witness :
    60 ≤ (analyze_streaming_performance c1Metrics).score
    ∧ (analyze_streaming_performance c1Metrics).score ≤ 80
    ∧ determine_optimal_quality goldTier (analyze_streaming_performance c1Metrics) c1Metrics
        = Except.ok "1080p" :=
  ⟨by rw [c1Metrics_score], by rw [c1Metrics_score]; norm_num,
    hysteresis_band_keeps_current_quality goldTier c1Metrics
      (by rw [c1Metrics_score]) (by rw [c1Metrics_score]; norm_num)⟩

/-- C4 (trigger boundary exactness): `should_trigger_optimization` is true
exactly when `buffer_ratio > 0.2` or `rebuffer_count > 3` or
`startup_time > 5000`, with strict inequalities at the boundaries:
`0.2`, `3` and `5000` do not trigger, while `0.2001`, `4` and `5001` do. -/
theorem trigger_condition_strict_boundaries :
    (∀ m : Metrics, should_trigger_optimization m = true ↔
      ((0.2 : ℚ) < m.buffer_ratio.getD 0 ∨ (3 : ℚ) < m.rebuffer_count.getD 0
        ∨ (5000 : ℚ) < m.startup_time.getD 0))
    ∧ should_trigger_optimization
        ⟨some 0.2, some 5000, some 3, some 0, none, none⟩ = false
    ∧ should_trigger_optimization
        ⟨some 0.2001, some 0, some 0, some 0, none, none⟩ = true
    ∧ should_trigger_optimization
        ⟨some 0, some 0, some 4, some 0, none, none⟩ = true
    ∧ should_trigger_optimization
        ⟨some 0, some 5001, some 0, some 0, none, none⟩ = true := by
  refine ⟨fun m => ?_, ?_, ?_, ?_, ?_⟩ <;>
    norm_num [should_trigger_optimization, or_assoc]


/-- The spec's "extreme" metrics: buffer_ratio 1.0, rebuffer_count 100,
startup_time 100000, quality_switches 100. -/
def extremeMetrics : Metrics :=
  { buffer_ratio := some 1, startup_time := some 100000, rebuffer_count := some 100,
    quality_switches := some 100, current_quality := none, bandwidth_estimate := none }

/-- C5 counterexample: the spec's extreme input (`buffer_ratio=1.0`,
`rebuffer_count=100`, `startup_time=100000`, `quality_switches=100`) yields
score exactly 20, not 0 — the four penalty caps `30+20+20+10` bound the total
penalty by 80. -/
theorem extreme_metrics_score_is_twenty :
    (analyze_streaming_performance extremeMetrics).score = 20
    ∧ (analyze_streaming_performance extremeMetrics).score ≠ 0 := by
  constructor <;> norm_num [analyze_streaming_performance, extremeMetrics]

/-- C5 amended (score formula and clamping): for every metrics input with
non-negative fields, `analyze_streaming_performance` computes
`score = 100 - min(buffer_ratio*100, 30) - min(rebuffer_count*5, 20)
- min(startup_time/100, 20) - min(quality_switches*2, 10)` clamped to
`[0, 100]`, and the spec's extreme input yields score exactly 20 (never
negative). -/
theorem score_formula_and_clamping (m : Metrics)
    (hbr : 0 ≤ m.buffer_ratio.getD 0) (hrc : 0 ≤ m.rebuffer_count.getD 0)
    (hst : 0 ≤ m.startup_time.getD 0) (hqs : 0 ≤ m.quality_switches.getD 0) :
    (analyze_streaming_performance m).score = spec_clamped_score m
    ∧ 0 ≤ (analyze_streaming_performance m).score
    ∧ (analyze_streaming_performance m).score ≤ 100
    ∧ (analyze_streaming_performance extremeMetrics).score = 20 := by
  have e : (analyze_streaming_performance m).score
      = max 0 (100 - min (m.buffer_ratio.getD 0 * 100) 30
          - min (m.rebuffer_count.getD 0 * 5) 20
          - min (m.startup_time.getD 0 / 100) 20
          - min (m.quality_switches.getD 0 * 2) 10) := rfl
  have hp1 : (0 : ℚ) ≤ min (m.buffer_ratio.getD 0 * 100) 30 :=
    le_min (by positivity) (by norm_num)
  have hp2 : (0 : ℚ) ≤ min (m.rebuffer_count.getD 0 * 5) 20 :=
    le_min (by positivity) (by norm_num)
  have hp3 : (0 : ℚ) ≤ min (m.startup_time.getD 0 / 100) 20 :=
    le_min (by positivity) (by norm_num)
  have hp4 : (0 : ℚ) ≤ min (m.quality_switches.getD 0 * 2) 10 :=
    le_min (by positivity) (by norm_num)
  have hr : 100 - min (m.buffer_ratio.getD 0 * 100) 30
      - min (m.rebuffer_count.getD 0 * 5) 20
      - min (m.startup_time.getD 0 / 100) 20
      - min (m.quality_switches.getD 0 * 2) 10 ≤ (100 : ℚ) := by linarith
  refine ⟨?_, ?_, ?_, by norm_num [analyze_streaming_performance, extremeMetrics]⟩
  · rw [e]
    unfold spec_clamped_score
    rw [min_eq_right hr]
  · rw [e]; exact le_max_left _ _
  · rw [e]; exact max_le (by norm_num) hr
/-- C5 witness: the amended claim instantiated at the extreme input, whose
fields are all non-negative. -/
theorem score_formula_and_clamping_witness :
    (0 : ℚ) ≤ extremeMetrics.buffer_ratio.getD 0
    ∧ ((analyze_streaming_performance extremeMetrics).score = spec_clamped_score extremeMetrics
      ∧ 0 ≤ (analyze_streaming_performance extremeMetrics).score
      ∧ (analyze_streaming_performance extremeMetrics).score ≤ 100
      ∧ (analyze_streaming_performance extremeMetrics).score = 20) :=
  ⟨by norm_num [extremeMetrics],
    score_formula_and_clamping extremeMetrics (by norm_num [extremeMetrics])
      (by norm_num [extremeMetrics]) (by norm_num [extremeMetrics])
      (by norm_num [extremeMetrics])⟩

/-- C8 (bronze fallback): looking up the policy for any unknown subscription
tier yields the bronze tier policy and never raises — in particular
`policy_for("nonexistent_tier")` is the bronze policy — and the
`validate_stream_access` entry point makes the same admission decision for an
unknown tier as for `"bronze"`. -/
theorem unknown_tier_falls_back_to_bronze (tier : String)
    (h : tier ∉ ["bronze", "silver", "gold", "platinum"]) :
    getTierConfig tier = bronzeTier
    ∧ getTierConfig "nonexistent_tier" = bronzeTier
    ∧ (∀ requested stream_id query put,
        (validate_stream_access tier requested stream_id query put).resp.statusCode
          = (validate_stream_access "bronze" requested stream_id query put).resp.statusCode) := by
  simp only [List.mem_cons, List.not_mem_nil, or_false, not_or] at h
  obtain ⟨h1, h2, h3, h4⟩ := h
  have hd : getTierConfig tier = bronzeTier := getTierConfig_default tier (by simp [h1, h2, h3, h4])
  refine ⟨hd, getTierConfig_default "nonexistent_tier" (by decide), ?_⟩
  intro requested stream_id query put
  unfold validate_stream_access
  rw [hd, getTierConfig_bronze]
  by_cases hq : requested ∈ bronzeTier.allowed_qualities
  · by_cases hc :
        bronzeTier.concurrent_streams ≤ (get_user_streaming_sessions query).length
    · simp [hq, hc, VSAResp.statusCode]
    · simp [hq, hc, VSAResp.statusCode]
  · simp [hq, VSAResp.statusCode]

/-- C8 witness: instantiated at the unknown tier `"nonexistent_tier"`. -/
theorem unknown_tier_falls_back_to_bronze_witness :
    "nonexistent_tier" ∉ ["bronze", "silver", "gold", "platinum"]
    ∧ (getTierConfig "nonexistent_tier" = bronzeTier
      ∧ getTierConfig "nonexistent_tier" = bronzeTier
      ∧ (∀ requested stream_id query put,
          (validate_stream_access "nonexistent_tier" requested stream_id query put).resp.statusCode
            = (validate_stream_access "bronze" requested stream_id query put).resp.statusCode)) :=
  ⟨by decide, unknown_tier_falls_back_to_bronze "nonexistent_tier" (by decide)⟩


/-- C2 (admission control order and errors): for every
`validate_stream_access` request, a requested quality outside the tier's
allowed list yields the 403 quality-not-allowed failure (carrying the allowed
list and the tier) regardless of any session-store state; otherwise an active
session count at or above the tier's limit yields the 429
concurrency-limit failure (carrying count and limit) without recording a
session; otherwise exactly one session record is attempted and access is
granted with the tier-dependent `max_duration` and `buffer_size`. -/
theorem validate_access_order_and_payloads (tier req sid : String)
    (query : Except Unit (List Session)) (put : Except Unit Unit) :
    (req ∉ (getTierConfig tier).allowed_qualities →
      validate_stream_access tier req sid query put
        = { resp := VSAResp.qualityNotAllowed req (getTierConfig tier).allowed_qualities tier
            recordAttempted := false, recordPersisted := false }
      ∧ (VSAResp.qualityNotAllowed req (getTierConfig tier).allowed_qualities tier).statusCode
          = 403)
    ∧ (req ∈ (getTierConfig tier).allowed_qualities →
        (getTierConfig tier).concurrent_streams ≤ (get_user_streaming_sessions query).length →
      validate_stream_access tier req sid query put
        = { resp := VSAResp.limitExceeded (get_user_streaming_sessions query).length
              (getTierConfig tier).concurrent_streams (get_user_streaming_sessions query)
            recordAttempted := false, recordPersisted := false }
      ∧ (VSAResp.limitExceeded (get_user_streaming_sessions query).length
          (getTierConfig tier).concurrent_streams (get_user_streaming_sessions query)).statusCode
          = 429)
    ∧ (req ∈ (getTierConfig tier).allowed_qualities →
        (get_user_streaming_sessions query).length < (getTierConfig tier).concurrent_streams →
      validate_stream_access tier req sid query put
        = { resp := VSAResp.granted req sid (get_max_session_duration tier) (get_buffer_size tier)
            recordAttempted := true
            recordPersisted := (record_stream_access put).persisted }
      ∧ (VSAResp.granted req sid (get_max_session_duration tier) (get_buffer_size tier)).statusCode
          = 200
      ∧ (put = Except.ok () → (record_stream_access put).persisted = true)) := by
  refine ⟨fun hq => ⟨?_, rfl⟩, fun hq hc => ⟨?_, rfl⟩, fun hq hc => ⟨?_, rfl, fun hput => ?_⟩⟩
  · simp [validate_stream_access, hq]
  · simp [validate_stream_access, hq, hc]
  · simp [validate_stream_access, hq, not_le.mpr hc]
  · simp [hput, record_stream_access]

/-- Helper for C3: the loop of `get_recommended_quality` against the spec's
fallback, for any ladder whose lowest rung is `'480p'`. -/
theorem find_reverse_getD_spec (l : List String) (p : String → Bool)
    (hhead : l.headD "480p" = "480p") (hmem : "480p" ∈ l) :
    ((l.reverse.find? p).getD "480p"
        = match l.reverse.find? p with
          | some q => q
          | none => l.headD "480p")
    ∧ (l.reverse.find? p).getD "480p" ∈ l := by
  cases hf : l.reverse.find? p with
  | none =>
    refine ⟨?_, ?_⟩
    · simp only [hf, Option.getD_none]
      exact hhead.symm
    · simp only [hf, Option.getD_none]
      exact hmem
  | some q =>
    have hq : q ∈ l.reverse := List.mem_of_find?_eq_some hf
    rw [List.mem_reverse] at hq
    simp [hf, hq]

/-- C3 (recommendation algorithm): `get_recommended_quality` walks the tier's
`allowed_qualities` from highest to lowest, inflates each candidate's nominal
bitrate by the stability multiplier (1.5 unstable / 1.2 moderate /
1.1 otherwise) and returns the first candidate that fits the bandwidth,
falling back to the lowest quality of the tier's ladder — so for every tier
policy the result equals the spec's description and is always a member of the
tier's ladder, and the function never errors (it is total). -/
theorem recommended_quality_refines_spec (tier : String) (bandwidth : ℚ)
    (stability : String) :
    get_recommended_quality (getTierConfig tier) bandwidth stability
      = spec_recommended_quality (getTierConfig tier) bandwidth stability
    ∧ get_recommended_quality (getTierConfig tier) bandwidth stability
        ∈ (getTierConfig tier).allowed_qualities := by
  unfold get_recommended_quality spec_recommended_quality
  obtain h | h | h | h := tierConfig_cases tier <;> rw [h] <;>
    exact find_reverse_getD_spec _ _ (by norm_num [bronzeTier, silverTier, goldTier, platinumTier])
      (by norm_num [bronzeTier, silverTier, goldTier, platinumTier])


/-- C9 counterexample: a failing session-record write during
`validate_stream_access` raises nothing and the caller still receives the 200
`access_granted` success response — the store failure is swallowed into a
success response, not surfaced as a `StorageUnavailable` error (no such error
exists in the code). -/
theorem session_write_failure_yields_success_response :
    (record_stream_access (Except.error ())).raised = false
    ∧ (store_optimization_results (Except.error ())).raised = false
    ∧ validate_stream_access "silver" "480p" "s1" (Except.ok []) (Except.error ())
        = { resp := VSAResp.granted "480p" "s1" 7200 15
            recordAttempted := true, recordPersisted := false }
    ∧ (VSAResp.granted "480p" "s1" 7200 15).statusCode = 200 := by
  refine ⟨rfl, rfl, ?_, rfl⟩
  simp [validate_stream_access, getTierConfig_silver, silverTier,
    get_user_streaming_sessions, record_stream_access, get_max_session_duration,
    get_buffer_size]

/-- C9 amended (storage failure handling): store-write failures in
`record_stream_access` and `store_optimization_results` are caught and logged,
never propagated — the enclosing response is independent of the write outcome
and the record is simply not persisted; a failing metric-sample write in
`update_viewer_metrics` surfaces as the generic 500 response with no sample
stored and no optimizer invoked.  Each write is a single independent record
insert, so a failed write leaves no partial state. -/
theorem store_write_failures_swallowed_or_generic (put : Except Unit Unit) :
    (record_stream_access put).raised = false
    ∧ (store_optimization_results put).raised = false
    ∧ (∀ tier req sid query,
        (validate_stream_access tier req sid query put).resp
          = (validate_stream_access tier req sid query (Except.ok ())).resp)
    ∧ (∀ u s m samples,
        update_viewer_metrics u s m samples (Except.error ())
          = match firstMissingMetric m with
            | none => { resp := UVMResp.serverError, samples := samples
                        optimizer_invoked := false }
            | some f => { resp := UVMResp.missingMetric f, samples := samples
                          optimizer_invoked := false }) := by
  refine ⟨?_, ?_, ?_, ?_⟩
  · cases put <;> rfl
  · cases put <;> rfl
  · intro tier req sid query
    unfold validate_stream_access
    by_cases hq : req ∈ (getTierConfig tier).allowed_qualities
    · by_cases hc : (getTierConfig tier).concurrent_streams
          ≤ (get_user_streaming_sessions query).length
      · simp [hq, hc]
      · simp [hq, hc]
    · simp [hq]
  · intro u s m samples
    unfold update_viewer_metrics
    cases firstMissingMetric m <;> rfl

/-- C10 (fail-open admission on store read failure): when the session-store
query raises, `get_user_streaming_sessions` returns the empty list, so for
every tier and every requested quality in that tier's allowed ladder,
`validate_stream_access` under a failing session read treats the user as
having zero active sessions, grants access and attempts the session record —
the concurrency limit is not enforced. -/
theorem session_read_failure_fails_open (tier req sid : String) (put : Except Unit Unit)
    (h : req ∈ (getTierConfig tier).allowed_qualities) :
    get_user_streaming_sessions (Except.error ()) = []
    ∧ (validate_stream_access tier req sid (Except.error ()) put).resp
        = VSAResp.granted req sid (get_max_session_duration tier) (get_buffer_size tier)
    ∧ (validate_stream_access tier req sid (Except.error ()) put).recordAttempted = true := by
  have hpos : 1 ≤ (getTierConfig tier).concurrent_streams := by
    obtain hc | hc | hc | hc := tierConfig_cases tier <;>
      rw [hc] <;> norm_num [bronzeTier, silverTier, goldTier, platinumTier]
  have hno : ¬ ((getTierConfig tier).concurrent_streams
      ≤ (get_user_streaming_sessions (Except.error () : Except Unit (List Session))).length) := by
    simp only [get_user_streaming_sessions, List.length_nil]
    omega
  refine ⟨rfl, ?_, ?_⟩ <;> simp [validate_stream_access, h, hno]

/-- C10 witness: silver tier, `720p` (allowed), failing session read:
access granted. -/
theorem session_read_failure_fails_open_witness :
    "720p" ∈ (getTierConfig "silver").allowed_qualities
    ∧ (get_user_streaming_sessions (Except.error ()) = []
      ∧ (validate_stream_access "silver" "720p" "s1" (Except.error ()) (Except.ok ())).resp
          = VSAResp.granted "720p" "s1" (get_max_session_duration "silver")
              (get_buffer_size "silver")
      ∧ (validate_stream_access "silver" "720p" "s1" (Except.error ())
          (Except.ok ())).recordAttempted = true) :=
  ⟨by rw [getTierConfig_silver]; norm_num [silverTier],
    session_read_failure_fails_open "silver" "720p" "s1" (Except.ok ())
      (by rw [getTierConfig_silver]; norm_num [silverTier])⟩


/-- The metrics of the end-to-end scenario after degradation: poor experience
(`score = 20 < 60`) while playing `1080p`. -/
def goldUserPoorMetrics : Metrics :=
  { buffer_ratio := some 0.5, startup_time := some 8000, rebuffer_count := some 5,
    quality_switches := some 6, current_quality := some "1080p", bandwidth_estimate := some 0 }

theorem goldUserPoorMetrics_analysis :
    analyze_streaming_performance goldUserPoorMetrics =
      { score := 20
        recommendations := ["Reduce quality to improve buffering",
          "Use lower startup quality for faster playback",
          "Increase switching threshold to reduce oscillation",
          "Consider adaptive buffer sizing"]
        buffer_health := "poor", startup_health := "poor", stability := "poor" } := by
  norm_num [analyze_streaming_performance, goldUserPoorMetrics]

/-- C6: the code bug evaluated.  `get_user_subscription_tier` ignores the user
and returns `'silver'`, so for a gold-tier user playing `1080p` with a poor
score the optimizer searches `'1080p'` in silver's ladder, raises `ValueError`
and answers 500 — while under the gold policy the step-down to `'720p'` the
claim describes does hold. -/
theorem gold_user_optimization_returns_500 :
    get_user_subscription_tier "gold_user" = "silver"
    ∧ (analyze_streaming_performance goldUserPoorMetrics).score < 60
    ∧ optimize_quality_for_user "gold_user" goldUserPoorMetrics = OptResp.serverError
    ∧ determine_optimal_quality goldTier (analyze_streaming_performance goldUserPoorMetrics)
        goldUserPoorMetrics = Except.ok "720p" := by
  have hdet : determine_optimal_quality silverTier
      (analyze_streaming_performance goldUserPoorMetrics) goldUserPoorMetrics
      = Except.error PyErr.valueError := by
    rw [goldUserPoorMetrics_analysis]
    norm_num [determine_optimal_quality, goldUserPoorMetrics, silverTier, pyLast,
      pyListGet, pyIndex, List.findIdx?]
    simp
  refine ⟨rfl, ?_, ?_, ?_⟩
  · rw [goldUserPoorMetrics_analysis]; norm_num
  · unfold optimize_quality_for_user get_user_subscription_tier
    rw [getTierConfig_silver, hdet]
  · rw [goldUserPoorMetrics_analysis]
    norm_num [determine_optimal_quality, goldUserPoorMetrics, goldTier, pyLast,
      pyListGet, pyIndex, List.findIdx?]
    simp

theorem firstMissingMetric_eq_none_iff (m : Metrics) :
    firstMissingMetric m = none ↔
      (m.buffer_ratio ≠ none ∧ m.startup_time ≠ none ∧ m.rebuffer_count ≠ none
        ∧ m.quality_switches ≠ none) := by
  obtain ⟨br, st, rc, qs, cq, bw⟩ := m
  cases br <;> cases st <;> cases rc <;> cases qs <;>
    simp [firstMissingMetric, required_metrics, metricPresent, List.find?]

theorem firstMissingMetric_names_absent_field (m : Metrics) (f : String)
    (hf : firstMissingMetric m = some f) : metricPresent m f = false := by
  obtain ⟨br, st, rc, qs, cq, bw⟩ := m
  cases br <;> cases st <;> cases rc <;> cases qs <;>
    simp_all [firstMissingMetric, required_metrics, metricPresent, List.find?] <;>
    simp [← hf, metricPresent]

/-- C7 (telemetry ingestion validation): `update_viewer_metrics` fails with
the 400 missing-metric error naming an absent field exactly when one of the
four required fields is missing, and then persists nothing and invokes no
optimizer; when all four are present (and the store write succeeds) it
persists exactly one sample and invokes the optimizer exactly when
`should_trigger_optimization` holds, reporting that flag in the response. -/
theorem metrics_validation_gates_ingestion (u s : String) (m : Metrics)
    (samples : List MetricSample) (put : Except Unit Unit) :
    ((∃ f, (update_viewer_metrics u s m samples put).resp = UVMResp.missingMetric f)
      ↔ (m.buffer_ratio = none ∨ m.startup_time = none ∨ m.rebuffer_count = none
          ∨ m.quality_switches = none))
    ∧ (∀ f, (update_viewer_metrics u s m samples put).resp = UVMResp.missingMetric f →
        metricPresent m f = false
        ∧ (update_viewer_metrics u s m samples put).samples = samples
        ∧ (update_viewer_metrics u s m samples put).optimizer_invoked = false)
    ∧ (m.buffer_ratio ≠ none → m.startup_time ≠ none → m.rebuffer_count ≠ none →
        m.quality_switches ≠ none → put = Except.ok () →
        update_viewer_metrics u s m samples put
          = { resp := UVMResp.ok (should_trigger_optimization m)
              samples := samples ++ [mkMetricSample u s m]
              optimizer_invoked := should_trigger_optimization m }) := by
  refine ⟨⟨?_, ?_⟩, ?_, ?_⟩
  · rintro ⟨f, hf⟩
    by_contra hall
    push_neg at hall
    have hnone : firstMissingMetric m = none :=
      (firstMissingMetric_eq_none_iff m).mpr ⟨hall.1, hall.2.1, hall.2.2.1, hall.2.2.2⟩
    unfold update_viewer_metrics at hf
    rw [hnone] at hf
    cases put <;> simp at hf
  · intro hone
    cases hm : firstMissingMetric m with
    | some g =>
      refine ⟨g, ?_⟩
      unfold update_viewer_metrics
      rw [hm]
    | none =>
      exfalso
      have hall := (firstMissingMetric_eq_none_iff m).mp hm
      rcases hone with h | h | h | h
      · exact hall.1 h
      · exact hall.2.1 h
      · exact hall.2.2.1 h
      · exact hall.2.2.2 h
  · intro f hf
    cases hm : firstMissingMetric m with
    | none =>
      exfalso
      unfold update_viewer_metrics at hf
      rw [hm] at hf
      cases put <;> simp at hf
    | some g =>
      unfold update_viewer_metrics at hf ⊢
      rw [hm] at hf ⊢
      simp only [UVMResp.missingMetric.injEq] at hf
      subst hf
      exact ⟨firstMissingMetric_names_absent_field m g hm, rfl, rfl⟩
  · intro h1 h2 h3 h4 hput
    have hm : firstMissingMetric m = none :=
      (firstMissingMetric_eq_none_iff m).mpr ⟨h1, h2, h3, h4⟩
    unfold update_viewer_metrics
    rw [hm, hput]

end QualityManager
